import Mathlib

/-!
# Verification of the Passbolt auth and secret-decryption orchestrators

Shallow embedding of `src/all/lib/pagemod/debugPagemod.js` (class
`AuthController`: `verify`, `login`, `beforeLogin`, `syncUserSettings`,
`handleLoginSuccess`, `handleLoginError`) and of
`src/all/background_page/controller/secret/secretDecryptController.js`
(class `SecretDecryptController`: `decrypt`, `_getSecret`).

The external collaborators (`GpgAuth`, `Crypto`, `User`, `Secret`,
`LegacyResourceService`, `passphraseController`, `progressController`,
worker ports) are modelled as oracles: a record of the results the
collaborator calls would return or throw.  Each controller method is
translated into a pure Lean function returning the trace of observable
events (collaborator calls and port emissions) it would produce, in
execution order, together with the resulting session state where relevant.

JavaScript errors are values with a class tag and a mutable `message`
field; `worker.port.getEmitableError(error)` produces a sanitized
serializable copy carrying the same class and message, modelled as the
identity on this representation.
-/

/-- The class of a thrown JavaScript error, as far as the two controllers
distinguish them. -/
inductive ErrorKind where
  | generic
  | crypto
  | auth
  | serverKeyChanged
  | keyIsExpired
  | promptCancelled
  | typeError
  deriving DecidableEq, Repr

/-- A JavaScript error value: a class tag plus its `message` string. -/
structure JsError where
  kind : ErrorKind
  message : String
  deriving DecidableEq, Repr

/-- A JavaScript value, as far as the `redirect` argument of `login` is
inspected: `!redirect`, `typeof redirect === 'string' || redirect
instanceof String`, and `redirect.charAt(0)`. -/
inductive JsValue where
  | undefined
  | nullv
  | str (s : String)
  | other
  deriving DecidableEq, Repr

namespace AuthController

/-- Oracle for the collaborators of `AuthController.verify`:
`this.auth.verify()` (`none` = resolves, `some e` = rejects with `e`),
and the two side-effect-free probes `this.auth.serverKeyChanged()` and
`this.auth.isServerKeyExpired()`. -/
structure VerifyEnv where
  verifyResult : Option JsError
  serverKeyChanged : Bool
  isServerKeyExpired : Bool

/-- The single reply `verify` emits on `this.worker.port`:
`emit(requestId, 'SUCCESS', msg)` or
`emit(requestId, 'ERROR', getEmitableError(error))`. -/
inductive VerifyEmission where
  | success (msg : String)
  | error (e : JsError)
  deriving DecidableEq, Repr

/-- Embedding of `AuthController.verify` (debugPagemod.js lines 95-111).
On failure the error is reclassified: `serverKeyChanged()` first, then
`isServerKeyExpired()`, else the original error is kept; finally the
message is prefixed with the generic notice. -/
def verify (env : VerifyEnv) : VerifyEmission :=
  match env.verifyResult with
  | none =>
      .success "The server key is verified. The server can use it to sign and decrypt content."
  | some error =>
      let error :=
        if env.serverKeyChanged then
          { kind := ErrorKind.serverKeyChanged, message := "The server key has changed." }
        else if env.isServerKeyExpired then
          { kind := ErrorKind.keyIsExpired, message := "The server key is expired." }
        else error
      .error { error with message := "Could not verify server key." ++ " " ++ error.message }

/-- Observable events of one `AuthController.login` run, in execution
order: collaborator calls and the replies emitted on the worker port or
on the AuthForm side channel. -/
inductive LoginEvent where
  /-- `Worker.get('Auth', tabId).port.emit('passbolt.auth.login-processing', ...)`. -/
  | loginProcessing (msg : String)
  /-- `user.retrieveAndStoreCsrfToken()` was invoked. -/
  | csrfCall
  /-- `this.crypto.getAndDecryptPrivateKey(passphrase)` was invoked. -/
  | decryptKeyCall (passphrase : String)
  /-- `this.auth.login(privateKey)` was invoked. -/
  | authLoginCall (privateKey : String)
  /-- `user.storeMasterPasswordTemporarily(passphrase, -1)` was invoked. -/
  | storePassphrase (passphrase : String) (duration : Int)
  /-- `this.auth.startCheckAuthStatusLoop()` was invoked. -/
  | startLoopCall
  /-- `user.settings.sync()` was invoked. -/
  | settingsSyncCall
  /-- `user.settings.setDefaults()` was invoked. -/
  | setDefaultsCall
  /-- One background iteration of the session-liveness loop ran. -/
  | livenessCheck
  /-- `app.pageMods.PassboltApp.init()` was invoked. -/
  | passboltAppInit
  /-- `Worker.get('Auth', tabId).port.emit('passbolt.auth.login-success', msg, redirect)`. -/
  | sideSuccess (msg : String) (redirect : String)
  /-- `this.worker.port.emit(this.requestId, 'SUCCESS')`. -/
  | portSuccess
  /-- `Worker.get('Auth', tabId).port.emit('passbolt.auth.login-failed', error.message)`. -/
  | sideFailed (msg : String)
  /-- `this.worker.port.emit(this.requestId, 'ERROR', getEmitableError(error))`. -/
  | portError (e : JsError)
  deriving DecidableEq, Repr

/-- Oracle for the collaborators of `AuthController.login`.
`retrieveAndStoreCsrfToken`, `getAndDecryptPrivateKey` and `authLogin`
reject with the given error or resolve; `settingsSync` is
`user.settings.sync()`.  `isAuthForm` is the runtime caller-context test
`this.worker.pageMod && this.worker.pageMod.args.name === "AuthForm"`.
`trustedDomain` is `Config.read('user.settings.trustedDomain')` and
`urlHref` is the browser's URL normalization `s => new URL(s).href`.
`loopIters` is modelled from the spec: `GpgAuth.startCheckAuthStatusLoop`
is not under src/ (only its caller is); per the spec it starts a periodic
background session-liveness re-check, fire-and-forget, whose number of
iterations (`loopIters`) is owned by the process-wide loop lifecycle and
not by the `login` call. -/
structure LoginEnv where
  retrieveAndStoreCsrfToken : Option JsError
  getAndDecryptPrivateKey : String → Except JsError String
  authLogin : String → Option JsError
  settingsSync : Option JsError
  isAuthForm : Bool
  trustedDomain : String
  urlHref : String → String
  loopIters : Nat

/-- Result of one `login` run: the event trace, and the session's
retained-passphrase slot written by `storeMasterPasswordTemporarily`
(`-1` is the source's "forever" sentinel duration). -/
structure LoginResult where
  events : List LoginEvent
  retainedPassphrase : Option (String × Int)
  deriving DecidableEq, Repr

/-- Embedding of `AuthController.beforeLogin` (lines 142-150): when the
caller is the AuthForm, emit a processing notice on the Auth side
channel. -/
def beforeLogin (env : LoginEnv) : List LoginEvent :=
  if env.isAuthForm then [.loginProcessing "Logging in"] else []

/-- Embedding of `AuthController.handleLoginError` (lines 201-207). -/
def handleLoginError (env : LoginEnv) (error : JsError) : List LoginEvent :=
  if env.isAuthForm then [.sideFailed error.message]
  else [.portError error]

/-- Embedding of `AuthController.handleLoginSuccess` (lines 174-194):
initialize PassboltApp, then either send the success with the resolved
redirect URL on the Auth side channel (AuthForm caller) or emit a plain
SUCCESS on the worker port. -/
def handleLoginSuccess (env : LoginEnv) (redirect : JsValue) : List LoginEvent :=
  LoginEvent.passboltAppInit ::
  (if env.isAuthForm then
    let url :=
      match redirect with
      | .str s =>
          if s ≠ "" ∧ s.data.head? = some '/' then env.urlHref (env.trustedDomain ++ s)
          else env.urlHref env.trustedDomain
      | _ => env.urlHref env.trustedDomain
    [.sideSuccess "You are now logged in!" url]
  else [.portSuccess])

/-- Embedding of `AuthController.syncUserSettings` (lines 157-165): a
sync failure is caught and `setDefaults` applied; nothing is rethrown. -/
def syncUserSettings (env : LoginEnv) : List LoginEvent :=
  match env.settingsSync with
  | some _ => [.settingsSyncCall, .setDefaultsCall]
  | none => [.settingsSyncCall]

/-- Embedding of `AuthController.login` (lines 118-135).  The `try`
block runs CSRF bootstrap, private-key decryption, remote login,
optional passphrase retention, liveness-loop start and settings sync in
order; any rejection up to the remote login is caught by the single
`catch` and routed to `handleLoginError`.  `startCheckAuthStatusLoop` is
modelled from the spec as returning after starting the background loop
(`startLivenessLoop() → void`, fire-and-forget, no failure contract). -/
def login (env : LoginEnv) (passphrase : String) (remember : Bool)
    (redirect : JsValue) : LoginResult :=
  let pre := beforeLogin env
  match env.retrieveAndStoreCsrfToken with
  | some error =>
      { events := pre ++ [.csrfCall] ++ handleLoginError env error
        retainedPassphrase := none }
  | none =>
      match env.getAndDecryptPrivateKey passphrase with
      | .error error =>
          { events := pre ++ [.csrfCall, .decryptKeyCall passphrase]
              ++ handleLoginError env error
            retainedPassphrase := none }
      | .ok privateKey =>
          match env.authLogin privateKey with
          | some error =>
              { events := pre ++ [.csrfCall, .decryptKeyCall passphrase,
                    .authLoginCall privateKey]
                  ++ handleLoginError env error
                retainedPassphrase := none }
          | none =>
              let rememberEvents :=
                if remember then [LoginEvent.storePassphrase passphrase (-1)] else []
              { events := pre ++ [.csrfCall, .decryptKeyCall passphrase,
                    .authLoginCall privateKey]
                  ++ rememberEvents ++ [.startLoopCall]
                  ++ syncUserSettings env
                  ++ handleLoginSuccess env redirect
                retainedPassphrase :=
                  if remember then some (passphrase, -1) else none }

/-- An event that reports success to the caller: the plain SUCCESS port
reply or the AuthForm side-channel success. -/
def isSuccessReply : LoginEvent → Bool
  | .portSuccess => true
  | .sideSuccess _ _ => true
  | _ => false

/-- An event that reports failure to the caller: the ERROR port reply or
the AuthForm side-channel failure. -/
def isErrorReply : LoginEvent → Bool
  | .portError _ => true
  | .sideFailed _ => true
  | _ => false

end AuthController

namespace SecretDecryptController

/-- A secret record as used by the controller: only its `data` field
(the ciphertext) is read. -/
structure SecretRec where
  data : String
  deriving DecidableEq, Repr

/-- A resource record as returned by
`LegacyResourceService.findOne(resourceId, {contain: {secret: 1}})`:
only its `secrets` array is read. -/
structure ResourceRec where
  secrets : List SecretRec
  deriving DecidableEq, Repr

/-- Oracle for the collaborators of `SecretDecryptController.decrypt`:
`Secret.findByResourceId`, `LegacyResourceService.findOne`,
`passphraseController.get(this.worker)`, and the two `Crypto` calls.
The `progressController` calls are UI progress reporting; following
their contract (`open`/`update`/`close`, no failure mode) they are
modelled as events without a failure outcome. -/
structure SecretEnv where
  findByResourceId : String → Except JsError SecretRec
  legacyFindOne : String → Except JsError ResourceRec
  passphraseGet : Except JsError String
  getAndDecryptPrivateKey : String → Except JsError String
  decryptWithKey : String → String → Except JsError String

/-- Calls made by `_getSecret`, in order. -/
inductive FetchEvent where
  /-- `Secret.findByResourceId(resourceId)` was invoked. -/
  | primaryCall (resourceId : String)
  /-- `LegacyResourceService.findOne(resourceId, {contain: {secret: 1}})` was invoked. -/
  | legacyCall (resourceId : String)
  deriving DecidableEq, Repr

/-- Observable events of the main body of one `decrypt` run. -/
inductive DecryptEvent where
  /-- `progressController.open(worker, title, goal, label)`. -/
  | progressOpen (title : String) (goal : Nat) (label : String)
  /-- `progressController.update(worker, step, label)`. -/
  | progressUpdate (step : Nat) (label : String)
  /-- `progressController.close(worker)`. -/
  | progressClose
  /-- `console.error(error)`. -/
  | consoleError (e : JsError)
  /-- `this.worker.port.emit(this.requestId, 'SUCCESS', message)`. -/
  | successEmit (message : String)
  /-- `this.worker.port.emit(this.requestId, 'ERROR', getEmitableError(error))`. -/
  | errorEmit (e : JsError)
  deriving DecidableEq, Repr

/-- The JavaScript `TypeError` thrown by `secret.data` when the legacy
path returned a resource with an empty `secrets` array, so that
`resource.secrets[0]` was `undefined`. -/
def undefinedDataError : JsError :=
  { kind := ErrorKind.typeError
    message := "Cannot read properties of undefined (reading 'data')" }

/-- Embedding of `SecretDecryptController._getSecret` (lines 66-79): try
`Secret.findByResourceId`; on rejection fall back to the legacy resource
lookup and take `resource.secrets[0]` (which is `undefined`, here
`none`, when the array is empty).  Returns the calls made and the
outcome of the returned promise. -/
def _getSecret (env : SecretEnv) (resourceId : String) :
    List FetchEvent × Except JsError (Option SecretRec) :=
  match env.findByResourceId resourceId with
  | .ok secret => ([.primaryCall resourceId], .ok (some secret))
  | .error _ =>
      match env.legacyFindOne resourceId with
      | .ok resource =>
          ([.primaryCall resourceId, .legacyCall resourceId], .ok resource.secrets.head?)
      | .error error =>
          ([.primaryCall resourceId, .legacyCall resourceId], .error error)

/-- Result of one `decrypt` run.  The secret fetch is started eagerly
(`const secretPromise = this._getSecret(resourceId)`) and runs
concurrently with the passphrase prompt, so its calls are reported
separately from the main body's trace: they happen whether or not the
main body ever awaits `secretPromise`. -/
structure DecryptResult where
  fetchEvents : List FetchEvent
  events : List DecryptEvent
  deriving DecidableEq, Repr

/-- The shared tail of the `catch` block of `decrypt` (lines 54-58):
log, emit ERROR, close the progress scope. -/
def catchTail (error : JsError) : List DecryptEvent :=
  [.consoleError error, .errorEmit error, .progressClose]

/-- Embedding of `SecretDecryptController.decrypt` (lines 32-59).  The
passphrase prompt failure path emits a single ERROR and returns without
awaiting `secretPromise`; otherwise the progress scope is opened, the
secret fetch awaited, the private key then the secret decrypted with
progress updates, SUCCESS emitted and the scope closed; any rejection in
that block lands in the `catch`, which emits ERROR and closes the
scope. -/
def decrypt (env : SecretEnv) (resourceId : String) : DecryptResult :=
  let fetch := _getSecret env resourceId
  match env.passphraseGet with
  | .error error => { fetchEvents := fetch.1, events := [.errorEmit error] }
  | .ok passphrase =>
      let body : List DecryptEvent :=
        match fetch.2 with
        | .error error => catchTail error
        | .ok secret =>
            match env.getAndDecryptPrivateKey passphrase with
            | .error error => catchTail error
            | .ok privateKey =>
                DecryptEvent.progressUpdate 1 "Decrypting secret" ::
                match secret with
                | none => catchTail undefinedDataError
                | some s =>
                    match env.decryptWithKey s.data privateKey with
                    | .error error => catchTail error
                    | .ok message =>
                        [.progressUpdate 2 "Complete", .successEmit message, .progressClose]
      { fetchEvents := fetch.1
        events := DecryptEvent.progressOpen "Decrypting..." 2 "Decrypting private key" :: body }

/-- Whether an event is the progress-scope close. -/
def isClose : DecryptEvent → Bool
  | .progressClose => true
  | _ => false

/-- Whether an event is a progress-scope open. -/
def isOpen : DecryptEvent → Bool
  | .progressOpen _ _ _ => true
  | _ => false

end SecretDecryptController

/-! ## Concrete collaborator oracles, used to evaluate the embeddings -/

/-- A concrete `CryptoError`, as thrown on a wrong passphrase. -/
def cryptoError : JsError :=
  { kind := ErrorKind.crypto, message := "The passphrase is invalid." }

/-- A concrete generic auth failure. -/
def authError : JsError :=
  { kind := ErrorKind.auth, message := "Authentication failed." }

/-- A concrete prompt-cancellation error. -/
def cancelError : JsError :=
  { kind := ErrorKind.promptCancelled, message := "The dialog has been closed." }

/-- A concrete settings-sync failure. -/
def syncError : JsError :=
  { kind := ErrorKind.generic, message := "Settings endpoint not available." }

/-- A login environment in which every collaborator succeeds when given
the passphrase "correct", for a caller that is not the AuthForm. -/
def loginEnvOk : AuthController.LoginEnv where
  retrieveAndStoreCsrfToken := none
  getAndDecryptPrivateKey := fun p =>
    if p = "correct" then .ok "PRIVATE-KEY" else .error cryptoError
  authLogin := fun _ => none
  settingsSync := none
  isAuthForm := false
  trustedDomain := "https://passbolt.test"
  urlHref := id
  loopIters := 0

/-- `loginEnvOk` with a failing remote login. -/
def loginEnvAuthFail : AuthController.LoginEnv :=
  { loginEnvOk with authLogin := fun _ => some authError }

/-- `loginEnvOk` with a failing settings sync. -/
def loginEnvSyncFail : AuthController.LoginEnv :=
  { loginEnvOk with settingsSync := some syncError }

/-- `loginEnvOk` for a call that originated from the AuthForm. -/
def loginEnvForm : AuthController.LoginEnv :=
  { loginEnvOk with isAuthForm := true }

/-- A verify environment whose remote verify fails while both probes
report true. -/
def verifyEnvChanged : AuthController.VerifyEnv where
  verifyResult := some authError
  serverKeyChanged := true
  isServerKeyExpired := true

/-- A secret record and a secret-decryption environment in which the
primary lookup succeeds and the passphrase "correct" unlocks the key. -/
def secretRecOk : SecretDecryptController.SecretRec := { data := "CIPHERTEXT" }

/-- A secret-decryption environment with every collaborator succeeding. -/
def secretEnvOk : SecretDecryptController.SecretEnv where
  findByResourceId := fun _ => .ok secretRecOk
  legacyFindOne := fun _ => .ok { secrets := [secretRecOk] }
  passphraseGet := .ok "correct"
  getAndDecryptPrivateKey := fun p =>
    if p = "correct" then .ok "PRIVATE-KEY" else .error cryptoError
  decryptWithKey := fun _ _ => .ok "PLAINTEXT"

/-- `secretEnvOk` with a cancelled passphrase prompt. -/
def secretEnvCancelled : SecretDecryptController.SecretEnv :=
  { secretEnvOk with passphraseGet := .error cancelError }

/-- `secretEnvOk` with a failing primary lookup. -/
def secretEnvLegacy : SecretDecryptController.SecretEnv :=
  { secretEnvOk with findByResourceId := fun _ => .error authError }

/-! ## Claim theorems -/

/-- C2: for every failed `AuthOrchestrator.verify()` call, the emitted
error is classified with key-changed taking priority over key-expired:
if `serverKeyChanged()` probes true the emitted error is a
`ServerKeyChangedError` regardless of `isServerKeyExpired()`; else if
`isServerKeyExpired()` is true it is a `KeyIsExpiredError`; else the
original error is kept; and in all cases the final message is the
generic could-not-verify notice concatenated with the specific cause. -/
theorem c2_verify_error_classification (env : AuthController.VerifyEnv)
    (e0 : JsError) (h : env.verifyResult = some e0) :
    (env.serverKeyChanged = true →
      AuthController.verify env = .error
        { kind := ErrorKind.serverKeyChanged
          message := "Could not verify server key." ++ " " ++ "The server key has changed." }) ∧
    (env.serverKeyChanged = false → env.isServerKeyExpired = true →
      AuthController.verify env = .error
        { kind := ErrorKind.keyIsExpired
          message := "Could not verify server key." ++ " " ++ "The server key is expired." }) ∧
    (env.serverKeyChanged = false → env.isServerKeyExpired = false →
      AuthController.verify env = .error
        { kind := e0.kind
          message := "Could not verify server key." ++ " " ++ e0.message }) ∧
    (∃ cause err, AuthController.verify env = .error err ∧
      err.message = "Could not verify server key." ++ " " ++ cause) := by
  refine ⟨?_, ?_, ?_, ?_⟩
  · intro hc
    simp [AuthController.verify, h, hc]
  · intro hc he
    simp [AuthController.verify, h, hc, he]
  · intro hc he
    simp [AuthController.verify, h, hc, he]
  · cases hc : env.serverKeyChanged with
    | true =>
        exact ⟨"The server key has changed.",
          { kind := ErrorKind.serverKeyChanged
            message := "Could not verify server key." ++ " " ++ "The server key has changed." },
          by simp [AuthController.verify, h, hc], rfl⟩
    | false =>
        cases he : env.isServerKeyExpired with
        | true =>
            exact ⟨"The server key is expired.",
              { kind := ErrorKind.keyIsExpired
                message := "Could not verify server key." ++ " " ++ "The server key is expired." },
              by simp [AuthController.verify, h, hc, he], rfl⟩
        | false =>
            exact ⟨e0.message,
              { kind := e0.kind
                message := "Could not verify server key." ++ " " ++ e0.message },
              by simp [AuthController.verify, h, hc, he], rfl⟩

/-- Witness for C2: evaluating `verify` on `verifyEnvChanged`, where
both probes are true, yields the `ServerKeyChangedError`. -/
theorem c2_witness :
    verifyEnvChanged.verifyResult = some authError ∧
    AuthController.verify verifyEnvChanged = .error
      { kind := ErrorKind.serverKeyChanged
        message := "Could not verify server key." ++ " " ++ "The server key has changed." } :=
  ⟨rfl, (c2_verify_error_classification verifyEnvChanged authError rfl).1 rfl⟩

/-- C1: for every `login(passphrase, remember, redirect)` call, a
SUCCESS is reported only if both private-key decryption and remote login
succeeded, in that order; if either of those steps fails, exactly one
ERROR (or side-channel failure) reply is emitted, the liveness loop is
never started, and when the failing step is private-key decryption,
`Authenticator.login` is never called. -/
theorem c1_login_success_requires_both_steps (env : AuthController.LoginEnv)
    (passphrase : String) (remember : Bool) (redirect : JsValue)
    (evs : List AuthController.LoginEvent)
    (hevs : evs = (AuthController.login env passphrase remember redirect).events) :
    (evs.any AuthController.isSuccessReply = true →
      ∃ k, env.getAndDecryptPrivateKey passphrase = .ok k ∧ env.authLogin k = none ∧
        ∃ l r, evs = l ++ [.decryptKeyCall passphrase, .authLoginCall k] ++ r) ∧
    ((∀ e, env.getAndDecryptPrivateKey passphrase = .error e →
        evs.countP AuthController.isErrorReply = 1 ∧
        evs.any AuthController.isSuccessReply = false ∧
        AuthController.LoginEvent.startLoopCall ∉ evs ∧
        ∀ k, AuthController.LoginEvent.authLoginCall k ∉ evs) ∧
     (∀ k e, env.getAndDecryptPrivateKey passphrase = .ok k →
        env.authLogin k = some e →
        evs.countP AuthController.isErrorReply = 1 ∧
        evs.any AuthController.isSuccessReply = false ∧
        AuthController.LoginEvent.startLoopCall ∉ evs)) := by
  subst hevs
  refine ⟨?_, ?_, ?_⟩
  · intro hs
    cases hc : env.retrieveAndStoreCsrfToken with
    | some e =>
        cases hA : env.isAuthForm <;>
          simp [AuthController.login, AuthController.beforeLogin,
            AuthController.handleLoginError, AuthController.isSuccessReply,
            hc, hA] at hs
    | none =>
        cases hd : env.getAndDecryptPrivateKey passphrase with
        | error e =>
            cases hA : env.isAuthForm <;>
              simp [AuthController.login, AuthController.beforeLogin,
                AuthController.handleLoginError, AuthController.isSuccessReply,
                hc, hd, hA] at hs
        | ok k =>
            cases ha : env.authLogin k with
            | some e =>
                cases hA : env.isAuthForm <;>
                  simp [AuthController.login, AuthController.beforeLogin,
                    AuthController.handleLoginError, AuthController.isSuccessReply,
                    hc, hd, hA, ha] at hs
            | none =>
                refine ⟨k, rfl, ha, AuthController.beforeLogin env ++ [.csrfCall],
                  (if remember then [AuthController.LoginEvent.storePassphrase passphrase (-1)]
                   else []) ++ [.startLoopCall] ++ AuthController.syncUserSettings env
                    ++ AuthController.handleLoginSuccess env redirect, ?_⟩
                simp [AuthController.login, hc, hd, ha]
  · intro e hd
    cases hc : env.retrieveAndStoreCsrfToken with
    | some e0 =>
        cases hA : env.isAuthForm <;>
          simp [AuthController.login, AuthController.beforeLogin,
            AuthController.handleLoginError, AuthController.isSuccessReply,
            AuthController.isErrorReply, hc, hA]
    | none =>
        cases hA : env.isAuthForm <;>
          simp [AuthController.login, AuthController.beforeLogin,
            AuthController.handleLoginError, AuthController.isSuccessReply,
            AuthController.isErrorReply, hc, hd, hA]
  · intro k e hd ha
    cases hc : env.retrieveAndStoreCsrfToken with
    | some e0 =>
        cases hA : env.isAuthForm <;>
          simp [AuthController.login, AuthController.beforeLogin,
            AuthController.handleLoginError, AuthController.isSuccessReply,
            AuthController.isErrorReply, hc, hA]
    | none =>
        cases hA : env.isAuthForm <;>
          simp [AuthController.login, AuthController.beforeLogin,
            AuthController.handleLoginError, AuthController.isSuccessReply,
            AuthController.isErrorReply, hc, hd, ha, hA]

/-- Witness for C1: in the environment whose remote login fails, a
`login` call with the correct passphrase emits exactly one ERROR reply,
no SUCCESS, and never starts the liveness loop. -/
theorem c1_witness :
    loginEnvAuthFail.getAndDecryptPrivateKey "correct" = .ok "PRIVATE-KEY" ∧
    loginEnvAuthFail.authLogin "PRIVATE-KEY" = some authError ∧
    ((AuthController.login loginEnvAuthFail "correct" false .undefined).events.countP
        AuthController.isErrorReply = 1 ∧
     (AuthController.login loginEnvAuthFail "correct" false .undefined).events.any
        AuthController.isSuccessReply = false ∧
     AuthController.LoginEvent.startLoopCall ∉
        (AuthController.login loginEnvAuthFail "correct" false .undefined).events) :=
  ⟨rfl, rfl,
    (c1_login_success_requires_both_steps loginEnvAuthFail "correct" false .undefined
      _ rfl).2.2 "PRIVATE-KEY" authError rfl rfl⟩

/-- C3: for every `decrypt(resourceId)` call that gets past the
passphrase prompt, the progress scope is opened exactly once, as the
first event of the main body, and closed exactly once, as its last
event, on the success path and on every failure path. -/
theorem c3_progress_scope_closed_once (env : SecretDecryptController.SecretEnv)
    (resourceId passphrase : String) (hp : env.passphraseGet = .ok passphrase) :
    ∃ mid, (SecretDecryptController.decrypt env resourceId).events =
        .progressOpen "Decrypting..." 2 "Decrypting private key" :: mid ++ [.progressClose] ∧
      mid.countP SecretDecryptController.isClose = 0 ∧
      mid.countP SecretDecryptController.isOpen = 0 := by
  cases hf : (SecretDecryptController._getSecret env resourceId).2 with
  | error e =>
      exact ⟨[.consoleError e, .errorEmit e], by
        simp [SecretDecryptController.decrypt, SecretDecryptController.catchTail, hp, hf],
        by simp [SecretDecryptController.isClose, SecretDecryptController.isOpen]⟩
  | ok secret =>
      cases hd : env.getAndDecryptPrivateKey passphrase with
      | error e =>
          exact ⟨[.consoleError e, .errorEmit e], by
            simp [SecretDecryptController.decrypt, SecretDecryptController.catchTail,
              hp, hf, hd],
            by simp [SecretDecryptController.isClose, SecretDecryptController.isOpen]⟩
      | ok privateKey =>
          cases secret with
          | none =>
              exact ⟨[.progressUpdate 1 "Decrypting secret",
                  .consoleError SecretDecryptController.undefinedDataError,
                  .errorEmit SecretDecryptController.undefinedDataError], by
                simp [SecretDecryptController.decrypt, SecretDecryptController.catchTail,
                  hp, hf, hd],
                by simp [SecretDecryptController.isClose, SecretDecryptController.isOpen]⟩
          | some s =>
              cases hw : env.decryptWithKey s.data privateKey with
              | error e =>
                  exact ⟨[.progressUpdate 1 "Decrypting secret",
                      .consoleError e, .errorEmit e], by
                    simp [SecretDecryptController.decrypt, SecretDecryptController.catchTail,
                      hp, hf, hd, hw],
                    by simp [SecretDecryptController.isClose, SecretDecryptController.isOpen]⟩
              | ok message =>
                  exact ⟨[.progressUpdate 1 "Decrypting secret",
                      .progressUpdate 2 "Complete", .successEmit message], by
                    simp [SecretDecryptController.decrypt, hp, hf, hd, hw],
                    by simp [SecretDecryptController.isClose, SecretDecryptController.isOpen]⟩

/-- Witness for C3: on the all-succeeding environment, `decrypt` opens
the scope first and closes it exactly once, as its last event. -/
theorem c3_witness :
    secretEnvOk.passphraseGet = .ok "correct" ∧
    ∃ mid, (SecretDecryptController.decrypt secretEnvOk "res-123").events =
        .progressOpen "Decrypting..." 2 "Decrypting private key" :: mid ++ [.progressClose] ∧
      mid.countP SecretDecryptController.isClose = 0 ∧
      mid.countP SecretDecryptController.isOpen = 0 :=
  ⟨rfl, c3_progress_scope_closed_once secretEnvOk "res-123" "correct" rfl⟩

/-- C4: for every `decrypt(resourceId)` call, the legacy resource lookup
is invoked if and only if the primary secret lookup by `resourceId`
fails; when the primary lookup succeeds the fetch makes the primary call
only. -/
theorem c4_legacy_fallback_iff_primary_fails (env : SecretDecryptController.SecretEnv)
    (resourceId : String) :
    (SecretDecryptController.FetchEvent.legacyCall resourceId ∈
        (SecretDecryptController.decrypt env resourceId).fetchEvents ↔
      ∃ e, env.findByResourceId resourceId = .error e) ∧
    (∀ s, env.findByResourceId resourceId = .ok s →
      (SecretDecryptController.decrypt env resourceId).fetchEvents =
        [.primaryCall resourceId]) := by
  have hfetch : (SecretDecryptController.decrypt env resourceId).fetchEvents =
      (SecretDecryptController._getSecret env resourceId).1 := by
    cases hp : env.passphraseGet <;>
      simp [SecretDecryptController.decrypt, hp]
  constructor
  · rw [hfetch]
    cases hf : env.findByResourceId resourceId with
    | ok s =>
        simp [SecretDecryptController._getSecret, hf]
    | error e =>
        cases hl : env.legacyFindOne resourceId with
        | ok resource =>
            simp [SecretDecryptController._getSecret, hf, hl]
        | error e2 =>
            simp [SecretDecryptController._getSecret, hf, hl]
  · intro s hf
    rw [hfetch]
    simp [SecretDecryptController._getSecret, hf]

/-- Witness for C4: with a failing primary lookup the legacy call is
made; with a succeeding one, only the primary call is. -/
theorem c4_witness :
    SecretDecryptController.FetchEvent.legacyCall "res-123" ∈
      (SecretDecryptController.decrypt secretEnvLegacy "res-123").fetchEvents ∧
    (SecretDecryptController.decrypt secretEnvOk "res-123").fetchEvents =
      [.primaryCall "res-123"] :=
  ⟨(c4_legacy_fallback_iff_primary_fails secretEnvLegacy "res-123").1.mpr ⟨authError, rfl⟩,
   (c4_legacy_fallback_iff_primary_fails secretEnvOk "res-123").2 secretRecOk rfl⟩

/-- C5: for every `decrypt(resourceId)` call whose passphrase prompt
fails, the main body consists of exactly one ERROR reply: the progress
scope is never opened, and the in-flight secret fetch is neither awaited
nor reported for its own failure, whatever its oracles do. -/
theorem c5_prompt_cancel_single_error (env : SecretDecryptController.SecretEnv)
    (resourceId : String) (e : JsError) (hp : env.passphraseGet = .error e) :
    (SecretDecryptController.decrypt env resourceId).events = [.errorEmit e] ∧
    (SecretDecryptController.decrypt env resourceId).events.countP
      SecretDecryptController.isOpen = 0 ∧
    ∀ f g, (SecretDecryptController.decrypt
        { env with findByResourceId := f, legacyFindOne := g } resourceId).events =
      [.errorEmit e] := by
  refine ⟨by simp [SecretDecryptController.decrypt, hp], ?_, ?_⟩
  · simp [SecretDecryptController.decrypt, hp, SecretDecryptController.isOpen]
  · intro f g
    simp [SecretDecryptController.decrypt, hp]

/-- Witness for C5: on the cancelled-prompt environment, `decrypt` emits
the single cancellation ERROR and opens no progress scope. -/
theorem c5_witness :
    secretEnvCancelled.passphraseGet = .error cancelError ∧
    ((SecretDecryptController.decrypt secretEnvCancelled "res-123").events =
        [.errorEmit cancelError] ∧
     (SecretDecryptController.decrypt secretEnvCancelled "res-123").events.countP
        SecretDecryptController.isOpen = 0 ∧
     ∀ f g, (SecretDecryptController.decrypt
          { secretEnvCancelled with findByResourceId := f, legacyFindOne := g }
          "res-123").events = [.errorEmit cancelError]) :=
  ⟨rfl, c5_prompt_cancel_single_error secretEnvCancelled "res-123" cancelError rfl⟩

/-- C6: for every `login()` call in which all steps up to and including
the liveness-loop start succeed but the settings sync fails, the failure
is swallowed: `setDefaults` is applied, no error reply is emitted, the
login still reports success exactly once, and when `remember` is false
no passphrase is retained. -/
theorem c6_settings_sync_failure_swallowed (env : AuthController.LoginEnv)
    (passphrase : String) (remember : Bool) (redirect : JsValue) (k : String) (e : JsError)
    (hc : env.retrieveAndStoreCsrfToken = none)
    (hd : env.getAndDecryptPrivateKey passphrase = .ok k)
    (ha : env.authLogin k = none)
    (hs : env.settingsSync = some e) :
    AuthController.LoginEvent.setDefaultsCall ∈
      (AuthController.login env passphrase remember redirect).events ∧
    (AuthController.login env passphrase remember redirect).events.countP
      AuthController.isErrorReply = 0 ∧
    (AuthController.login env passphrase remember redirect).events.countP
      AuthController.isSuccessReply = 1 ∧
    (remember = false →
      (AuthController.login env passphrase remember redirect).retainedPassphrase = none) := by
  cases hA : env.isAuthForm <;> cases remember <;>
    simp [AuthController.login, AuthController.beforeLogin, AuthController.syncUserSettings,
      AuthController.handleLoginSuccess, AuthController.isErrorReply,
      AuthController.isSuccessReply, hc, hd, ha, hs, hA]

/-- Witness for C6: evaluating the all-good-but-sync environment on
`login("correct", remember = false)`. -/
theorem c6_witness :
    loginEnvSyncFail.settingsSync = some syncError ∧
    (AuthController.LoginEvent.setDefaultsCall ∈
        (AuthController.login loginEnvSyncFail "correct" false .undefined).events ∧
     (AuthController.login loginEnvSyncFail "correct" false .undefined).events.countP
        AuthController.isErrorReply = 0 ∧
     (AuthController.login loginEnvSyncFail "correct" false .undefined).events.countP
        AuthController.isSuccessReply = 1 ∧
     (false = false →
        (AuthController.login loginEnvSyncFail "correct" false .undefined).retainedPassphrase =
          none)) :=
  ⟨rfl, c6_settings_sync_failure_swallowed loginEnvSyncFail "correct" false .undefined
    "PRIVATE-KEY" syncError rfl rfl rfl rfl⟩

/-- C7: for every `login()` call that reaches the retention step (CSRF
bootstrap, private-key decryption and remote login all succeeded), the
passphrase is retained if and only if `remember` is true, and when
retained it carries the `-1` "forever" sentinel duration; when
`remember` is false the session holds no retained passphrase and no
retention call is ever made. -/
theorem c7_passphrase_retention_iff_remember (env : AuthController.LoginEnv)
    (passphrase : String) (remember : Bool) (redirect : JsValue) (k : String)
    (hc : env.retrieveAndStoreCsrfToken = none)
    (hd : env.getAndDecryptPrivateKey passphrase = .ok k)
    (ha : env.authLogin k = none) :
    (AuthController.login env passphrase remember redirect).retainedPassphrase =
      (if remember then some (passphrase, (-1 : Int)) else none) ∧
    (remember = true →
      AuthController.LoginEvent.storePassphrase passphrase (-1) ∈
        (AuthController.login env passphrase remember redirect).events) ∧
    (remember = false → ∀ p d,
      AuthController.LoginEvent.storePassphrase p d ∉
        (AuthController.login env passphrase remember redirect).events) := by
  cases hA : env.isAuthForm <;> cases remember <;> cases hsy : env.settingsSync <;>
    simp [AuthController.login, AuthController.beforeLogin, AuthController.syncUserSettings,
      AuthController.handleLoginSuccess, hc, hd, ha, hA, hsy]

/-- Witness for C7: with `remember` true the session retains the
passphrase with the `-1` sentinel; the retention call is in the trace. -/
theorem c7_witness :
    loginEnvOk.authLogin "PRIVATE-KEY" = none ∧
    ((AuthController.login loginEnvOk "correct" true .undefined).retainedPassphrase =
        (if true then some ("correct", (-1 : Int)) else none) ∧
     (true = true →
        AuthController.LoginEvent.storePassphrase "correct" (-1) ∈
          (AuthController.login loginEnvOk "correct" true .undefined).events) ∧
     (true = false → ∀ p d,
        AuthController.LoginEvent.storePassphrase p d ∉
          (AuthController.login loginEnvOk "correct" true .undefined).events)) :=
  ⟨rfl, c7_passphrase_retention_iff_remember loginEnvOk "correct" true .undefined
    "PRIVATE-KEY" rfl rfl rfl⟩

/-- C8: for every successful `login()` from the AuthForm caller context,
the side-channel success carries the redirect URL resolved as: trusted
domain as-is when `redirect` is absent, not a string, or does not start
with a slash; trusted domain concatenated with the redirect path
otherwise (both passed through the browser URL normalization `href`). -/
theorem c8_redirect_resolution (env : AuthController.LoginEnv)
    (passphrase : String) (remember : Bool) (redirect : JsValue) (k : String)
    (hA : env.isAuthForm = true)
    (hc : env.retrieveAndStoreCsrfToken = none)
    (hd : env.getAndDecryptPrivateKey passphrase = .ok k)
    (ha : env.authLogin k = none) :
    ∃ l, (AuthController.login env passphrase remember redirect).events =
      l ++ [.sideSuccess "You are now logged in!"
        (match redirect with
         | .str s =>
             if s ≠ "" ∧ s.data.head? = some '/' then env.urlHref (env.trustedDomain ++ s)
             else env.urlHref env.trustedDomain
         | _ => env.urlHref env.trustedDomain)] := by
  refine ⟨AuthController.beforeLogin env ++ [.csrfCall, .decryptKeyCall passphrase,
      .authLoginCall k]
      ++ (if remember then [AuthController.LoginEvent.storePassphrase passphrase (-1)]
          else [])
      ++ [.startLoopCall] ++ AuthController.syncUserSettings env
      ++ [.passboltAppInit], ?_⟩
  simp [AuthController.login, AuthController.handleLoginSuccess, hc, hd, ha, hA]

/-- Witness for C8: a successful AuthForm login with `redirect = "/app"`
sends the concatenated URL on the side channel. -/
theorem c8_witness :
    loginEnvForm.isAuthForm = true ∧
    ∃ l, (AuthController.login loginEnvForm "correct" false (.str "/app")).events =
      l ++ [.sideSuccess "You are now logged in!"
        (match JsValue.str "/app" with
         | .str s =>
             if s ≠ "" ∧ s.data.head? = some '/' then
               loginEnvForm.urlHref (loginEnvForm.trustedDomain ++ s)
             else loginEnvForm.urlHref loginEnvForm.trustedDomain
         | _ => loginEnvForm.urlHref loginEnvForm.trustedDomain)] :=
  ⟨rfl, c8_redirect_resolution loginEnvForm "correct" false (.str "/app")
    "PRIVATE-KEY" rfl rfl rfl rfl⟩

/-- C9: for every `login()` call in which remote login succeeds, the
liveness loop is started fire-and-forget: the result of `login` does not
depend on how many iterations the background loop will run, and the
settings-sync call follows the loop start immediately in the trace. -/
theorem c9_liveness_loop_fire_and_forget (env : AuthController.LoginEnv)
    (passphrase : String) (remember : Bool) (redirect : JsValue) (k : String)
    (hc : env.retrieveAndStoreCsrfToken = none)
    (hd : env.getAndDecryptPrivateKey passphrase = .ok k)
    (ha : env.authLogin k = none) :
    (∀ n m, AuthController.login { env with loopIters := n } passphrase remember redirect =
        AuthController.login { env with loopIters := m } passphrase remember redirect) ∧
    ∃ l r, (AuthController.login env passphrase remember redirect).events =
      l ++ [.startLoopCall, .settingsSyncCall] ++ r := by
  constructor
  · intro n m
    rfl
  · refine ⟨AuthController.beforeLogin env ++ [.csrfCall, .decryptKeyCall passphrase,
        .authLoginCall k]
        ++ (if remember then [AuthController.LoginEvent.storePassphrase passphrase (-1)]
            else []),
      (match env.settingsSync with
       | some _ => [AuthController.LoginEvent.setDefaultsCall]
       | none => ([] : List AuthController.LoginEvent))
        ++ AuthController.handleLoginSuccess env redirect, ?_⟩
    cases hsy : env.settingsSync <;>
      simp [AuthController.login, AuthController.syncUserSettings, hc, hd, ha, hsy]

/-- Witness for C9: on the all-good environment the `login` result is
independent of the loop-iteration count and the trace contains the loop
start immediately followed by the settings-sync call. -/
theorem c9_witness :
    loginEnvOk.retrieveAndStoreCsrfToken = none ∧
    ((∀ n m, AuthController.login { loginEnvOk with loopIters := n } "correct" false .undefined =
        AuthController.login { loginEnvOk with loopIters := m } "correct" false .undefined) ∧
     ∃ l r, (AuthController.login loginEnvOk "correct" false .undefined).events =
       l ++ [.startLoopCall, .settingsSyncCall] ++ r) :=
  ⟨rfl, c9_liveness_loop_fire_and_forget loginEnvOk "correct" false .undefined
    "PRIVATE-KEY" rfl rfl rfl⟩

/-- C10: on every successful `login()`, `PassboltApp.init` runs before
any success reply is emitted, in every caller context: the trace splits
as a prefix with no success reply, then the init event, then a suffix
containing the success reply. -/
theorem c10_app_init_before_success_reply (env : AuthController.LoginEnv)
    (passphrase : String) (remember : Bool) (redirect : JsValue) (k : String)
    (hc : env.retrieveAndStoreCsrfToken = none)
    (hd : env.getAndDecryptPrivateKey passphrase = .ok k)
    (ha : env.authLogin k = none) :
    ∃ l r, (AuthController.login env passphrase remember redirect).events =
        l ++ .passboltAppInit :: r ∧
      l.countP AuthController.isSuccessReply = 0 ∧
      r.any AuthController.isSuccessReply = true := by
  refine ⟨AuthController.beforeLogin env ++ [.csrfCall, .decryptKeyCall passphrase,
      .authLoginCall k]
      ++ (if remember then [AuthController.LoginEvent.storePassphrase passphrase (-1)]
          else [])
      ++ [.startLoopCall] ++ AuthController.syncUserSettings env,
    (AuthController.handleLoginSuccess env redirect).tail, ?_, ?_, ?_⟩
  · simp [AuthController.login, AuthController.handleLoginSuccess, hc, hd, ha]
  · cases hA : env.isAuthForm <;> cases remember <;> cases hsy : env.settingsSync <;>
      simp [AuthController.beforeLogin, AuthController.syncUserSettings,
        AuthController.isSuccessReply, hA, hsy]
  · cases hA : env.isAuthForm <;>
      simp [AuthController.handleLoginSuccess, AuthController.isSuccessReply, hA]

/-- Witness for C10: on the all-good non-AuthForm environment the init
event precedes the single SUCCESS reply. -/
theorem c10_witness :
    loginEnvOk.authLogin "PRIVATE-KEY" = none ∧
    ∃ l r, (AuthController.login loginEnvOk "correct" false .undefined).events =
        l ++ .passboltAppInit :: r ∧
      l.countP AuthController.isSuccessReply = 0 ∧
      r.any AuthController.isSuccessReply = true :=
  ⟨rfl, c10_app_init_before_success_reply loginEnvOk "correct" false .undefined
    "PRIVATE-KEY" rfl rfl rfl⟩
